import Mathlib

/-!
Verification of the TransactAI fraud decision orchestrator
(`src/main/backend/backend-server.py`, with its collaborators
`mlserver.py` and `reportserver.py`) against its natural-language
specification.

The Python code is shallowly embedded: the pydantic `Transaction` model
and the `fraud_rules` rows become Lean structures; the pure rule engine
`check_transaction` becomes a fold over the rule list; the effectful
collaborators (DB rule fetch, ML scoring HTTP call, ledger insert,
report POST) are modelled by an explicit per-transaction environment
recording each collaborator's behaviour, with Python exceptions as
`Except` errors.  Amounts and thresholds, Python floats in the source,
are idealised as rationals.
-/

namespace TransactAI

/-- The pydantic `Transaction` model of `backend-server.py` (lines 52-64):
`transaction_id`, `transaction_date`, `transaction_amount` are required,
every other field is `Optional[str] = None`. -/
structure Transaction where
  transaction_id : String
  transaction_date : String
  transaction_amount : ℚ
  transaction_channel : Option String := none
  transaction_payment_mode : Option String := none
  payment_gateway_bank : Option String := none
  payer_email : Option String := none
  payer_mobile : Option String := none
  payer_card_brand : Option String := none
  payer_ip : Option String := none
  payer_browser : Option String := none
  payee_id : Option String := none
deriving DecidableEq

/-- One row of the `fraud_rules` table as read by `check_transaction`
(dictionary cursor): `rule.get("rule_type", "")` and the four payload
columns, each possibly NULL (`None`).  `add_rule` in `rule.py` populates
exactly one payload column per row, but `check_transaction` does not
assume that, so neither does the model. -/
structure Rule where
  rule_type : String := ""
  threshold : Option ℚ := none
  blocked_ip : Option String := none
  blocked_payer_browser : Option String := none
  blocked_payment_gateway : Option String := none
  blocked_email : Option String := none
deriving DecidableEq

/-- Python truthiness of an optional string (`if blocked_ip and ...`):
`None` and `""` are falsy, every other string is truthy. -/
def pyTruthyStr : Option String → Bool
  | none => false
  | some s => !(s == "")

/-- Python truthiness of the ML prediction value (`None`, or an int):
`None` and `0` are falsy. -/
def pyTruthyPred : Option Int → Bool
  | none => false
  | some n => !(n == 0)

/-- The reason string appended by the threshold branch of
`check_transaction` (line 83): `f"High transaction amount (> {threshold})"`. -/
def thresholdReason (th : ℚ) : String :=
  "High transaction amount (> " ++ toString th ++ ")"

/-- Reason string of the blocked-IP branch (line 87). -/
def blockedIpReason (b : String) : String := "Blocked IP: " ++ b

/-- Reason string of the blocked-browser branch (line 91). -/
def blockedBrowserReason (b : String) : String := "Blocked Browser: " ++ b

/-- Reason string of the blocked-gateway branch (line 95). -/
def blockedGatewayReason (b : String) : String := "Blocked Payment Gateway: " ++ b

/-- Reason string of the blocked-email branch (line 99). -/
def blockedEmailReason (b : String) : String := "Blocked Email: " ++ b

/-- The threshold check of `check_transaction` (lines 80-83): fires when
`rule_type == "Threshold Value"`, `threshold` is not NULL and
`transaction_amount > threshold`.  Returns the reasons this check appends. -/
def thresholdPart (t : Transaction) (r : Rule) : List String :=
  match r.threshold with
  | some th =>
      if r.rule_type = "Threshold Value" ∧ t.transaction_amount > th then
        [thresholdReason th]
      else []
  | none => []

/-- One blocked-value check (lines 85-99 all share this shape): fires when
the rule's blocked value is truthy (non-NULL, non-empty) and the
transaction field equals it exactly.  An absent transaction field
(`transaction.get(...) = None`) never equals a truthy blocked value. -/
def blockedPart (field : Option String) (blocked : Option String)
    (reason : String → String) : List String :=
  match blocked with
  | some b => if b ≠ "" ∧ field = some b then [reason b] else []
  | none => []

/-- All reasons one rule contributes for one transaction: the five
independent `if` checks of the loop body of `check_transaction`
(lines 72-99), in source order. -/
def checkRule (t : Transaction) (r : Rule) : List String :=
  thresholdPart t r ++
  blockedPart t.payer_ip r.blocked_ip blockedIpReason ++
  blockedPart t.payer_browser r.blocked_payer_browser blockedBrowserReason ++
  blockedPart t.payment_gateway_bank r.blocked_payment_gateway blockedGatewayReason ++
  blockedPart t.payer_email r.blocked_email blockedEmailReason

/-- Result dictionary of `check_transaction` (line 101). -/
structure RuleResult where
  transaction_id : String
  is_fraud_rule : Bool
  fraud_source : String
  fraud_reasons : List String
deriving DecidableEq

/-- The loop of `check_transaction` (lines 72-99): the accumulator is
(`is_fraud`, `fraud_reasons`); each check that fires sets `is_fraud` to
`True` and appends one reason. -/
def checkStep (t : Transaction) (acc : Bool × List String) (r : Rule) :
    Bool × List String :=
  let rs := checkRule t r
  (acc.1 || !rs.isEmpty, acc.2 ++ rs)

/-- `check_transaction` (lines 66-101), with the rule set — obtained in
the source by `fetch_rules()` — passed explicitly. -/
def check_transaction (t : Transaction) (rules : List Rule) : RuleResult :=
  let res := rules.foldl (checkStep t) (false, [])
  { transaction_id := t.transaction_id
    is_fraud_rule := res.1
    fraud_source := "rule"
    fraud_reasons := res.2 }

/-! ## The ML scoring client -/

/-- The JSON value found under the key `"prediction"` in the scoring
response body, as far as `get_ml_prediction` inspects it: the key may be
absent, hold a scalar number, or hold a list of numbers. -/
inductive PredField where
  | absent
  | scalar (n : Int)
  | list (l : List Int)
deriving DecidableEq

/-- Outcome of the `requests.post` call to the ML server: either the
call itself raises (network error, timeout), or an HTTP response arrives
with a success flag (`raise_for_status`) and a `"prediction"` field. -/
inductive MlCall where
  | failure
  | response (statusOk : Bool) (prediction : PredField)
deriving DecidableEq

/-- `get_ml_prediction` (lines 122-129): posts the transaction, checks
the status, then evaluates `response.json().get("prediction", [])[0]`.
Every exception — connection error, `raise_for_status` on a non-success
response, `IndexError` on an absent key or empty list, `TypeError` on a
non-list scalar — is caught and turned into `None`. -/
def get_ml_prediction : MlCall → Option Int
  | .failure => none
  | .response statusOk pred =>
    if statusOk then
      match pred with
      | .absent => none
      | .scalar _ => none
      | .list [] => none
      | .list (x :: _) => some x
    else none

/-- Response body built by `ml_predict` in `mlserver.py` (lines 66-75):
a JSON object with exactly the keys `transaction_id` and `is_fraud`. -/
structure MlServerResponse where
  transaction_id : String
  is_fraud : Nat
deriving DecidableEq

/-- `ml_predict` (mlserver.py lines 66-75) with the model's verdict
abstracted: `prediction` is `tf.math.less(loss, 0.264895)`, true when
the reconstruction loss is small (the transaction looks normal); the
response's `is_fraud` is `int(prediction) ^ 1`. -/
def ml_predict (lossBelowThreshold : Bool) (transaction_id : String) :
    MlServerResponse :=
  { transaction_id := transaction_id
    is_fraud := (if lossBelowThreshold then 1 else 0) ^^^ 1 }

/-- How the backend's `get_ml_prediction` sees a successful HTTP reply
from this repository's own `mlserver.py`: the body has keys
`transaction_id` and `is_fraud` only, so the `"prediction"` key is
absent. -/
def asBackendResponse (_m : MlServerResponse) : MlCall :=
  .response true .absent

/-! ## The report dispatcher -/

/-- The `requests.post` to the report server inside `send_fraud_report`:
succeeds or raises. -/
def postReport (postSucceeds : Bool) : Except Unit Unit :=
  if postSucceeds then .ok () else .error ()

/-- `send_fraud_report` (lines 41-50): posts the report and swallows any
exception (`except Exception: pass`), returning nothing either way. -/
def send_fraud_report (postSucceeds : Bool)
    (_transaction_id _fraud_details : String) : Unit :=
  match postReport postSucceeds with
  | .ok _ => ()
  | .error _ => ()

/-! ## The orchestrator -/

/-- Per-transaction behaviour of the external collaborators:
whether `fetch_rules` reaches the store (and what it returns), what the
ML scoring call does, whether the ledger INSERT of `upload_transaction`
succeeds, and whether the report POST succeeds. -/
structure Env where
  rulesFetch : Except Unit (List Rule)
  mlCall : MlCall
  persistOk : Bool
  reportOk : Bool

/-- Python exceptions that escape the endpoint body: a failed rule fetch
(store unreachable in `fetch_rules`) or a failed ledger insert
(`upload_transaction`). -/
inductive PipelineError where
  | storeUnavailable
  | persistenceError
deriving DecidableEq

/-- Pipeline states of the spec's per-transaction state machine, emitted
in the order the corresponding operations execute in the source. -/
inductive Event where
  | received
  | rulesFetched
  | evaluated
  | scored
  | merged
  | reportDispatched
  | persisted
deriving DecidableEq

/-- The response dictionary of the `/detect` endpoint: the
`check_transaction` result extended with `is_fraud_predicted`. -/
structure DetectResult where
  transaction_id : String
  is_fraud_rule : Bool
  fraud_source : String
  fraud_reasons : List String
  is_fraud_predicted : Option Int
deriving DecidableEq

/-- `detect` (lines 135-144), instrumented with the trace of pipeline
events in execution order.  Faithful to the source order: rules are
fetched and evaluated, the ML prediction obtained, the merged result
assembled, then — when the merged verdict is truthy — the fraud report
is sent, and only after that is the transaction uploaded to the ledger.
A rule-fetch failure raises out of the endpoint before anything else; a
ledger failure raises after the report was already dispatched. -/
def detect (env : Env) (t : Transaction) :
    List Event × Except PipelineError DetectResult :=
  match env.rulesFetch with
  | .error _ => ([Event.received], .error .storeUnavailable)
  | .ok rules =>
    let rr := check_transaction t rules
    let ml := get_ml_prediction env.mlCall
    let res : DetectResult :=
      { transaction_id := rr.transaction_id
        is_fraud_rule := rr.is_fraud_rule
        fraud_source := rr.fraud_source
        fraud_reasons := rr.fraud_reasons
        is_fraud_predicted := ml }
    let base := [Event.received, Event.rulesFetched, Event.evaluated,
                 Event.scored, Event.merged]
    let positive := rr.is_fraud_rule || pyTruthyPred ml
    let afterReport :=
      if positive then
        let _u := send_fraud_report env.reportOk t.transaction_id
          (String.intercalate ", " rr.fraud_reasons)
        base ++ [Event.reportDispatched]
      else base
    if env.persistOk then
      (afterReport ++ [Event.persisted], .ok res)
    else
      (afterReport, .error .persistenceError)

/-- One per-item result dictionary appended by `batch_detect`
(lines 162-167): note `fraud_reasons` is the comma-joined string here. -/
structure BatchItemResult where
  transaction_id : String
  is_fraud_rule : Bool
  is_fraud_predicted : Option Int
  fraud_reasons : String
deriving DecidableEq

/-- One iteration of the `batch_detect` loop (lines 153-167) for one
transaction: rules fetched and evaluated, prediction obtained, the
transaction uploaded (an upload failure raises here, before the report),
then the report possibly sent, then the item dictionary built. -/
def batch_item (env : Env) (t : Transaction) :
    Except PipelineError BatchItemResult :=
  match env.rulesFetch with
  | .error _ => .error .storeUnavailable
  | .ok rules =>
    let rr := check_transaction t rules
    let ml := get_ml_prediction env.mlCall
    if env.persistOk then
      let positive := rr.is_fraud_rule || pyTruthyPred ml
      let _u :=
        if positive then
          send_fraud_report env.reportOk t.transaction_id
            (String.intercalate ", " rr.fraud_reasons)
        else ()
      .ok { transaction_id := t.transaction_id
            is_fraud_rule := rr.is_fraud_rule
            is_fraud_predicted := ml
            fraud_reasons := String.intercalate ", " rr.fraud_reasons }
    else .error .persistenceError

/-- `batch_detect` (lines 149-169).  The loop body has no exception
handler: the first item whose rule fetch or ledger insert raises aborts
the whole endpoint, and no per-item results are returned at all.  Each
item is paired with the collaborator behaviour it encounters. -/
def batch_detect (items : List (Env × Transaction)) :
    Except PipelineError (List BatchItemResult) :=
  match items with
  | [] => .ok []
  | (env, t) :: rest =>
    match batch_item env t with
    | .error e => .error e
    | .ok r =>
      match batch_detect rest with
      | .error e => .error e
      | .ok rs => .ok (r :: rs)

/-! ## Concrete fixtures used by witnesses and counterexamples -/

/-- A plain low-amount transaction. -/
def txPlain : Transaction :=
  { transaction_id := "tx-1", transaction_date := "2025-01-01",
    transaction_amount := 10 }

/-- A 6000-amount transaction with a payer IP, the end-to-end example of
spec section 8. -/
def txHigh : Transaction :=
  { transaction_id := "tx-big", transaction_date := "2025-01-01",
    transaction_amount := 6000, payer_ip := some "1.2.3.4" }

/-- An active `Threshold Value` rule at 5000. -/
def rTh5000 : Rule := { rule_type := "Threshold Value", threshold := some 5000 }

/-- An active `Blocked Email` rule for `a@b.com`. -/
def rEmail : Rule := { rule_type := "Blocked Email", blocked_email := some "a@b.com" }

/-- A `Threshold Value` row that also carries a blocked-email payload. -/
def rMixed : Rule :=
  { rule_type := "Threshold Value", threshold := some 999999,
    blocked_email := some "a@b.com" }

/-- A transaction from `a@b.com`. -/
def txEmail : Transaction :=
  { transaction_id := "tx-em", transaction_date := "2025-01-02",
    transaction_amount := 5, payer_email := some "a@b.com" }

/-- Environment in which every collaborator behaves: the rule store
returns the 5000-threshold rule, the scoring call raises, persistence
and the report POST succeed. -/
def envOkAll : Env :=
  { rulesFetch := .ok [rTh5000], mlCall := .failure,
    persistOk := true, reportOk := true }

/-- Environment whose rule fetch raises (store unreachable). -/
def envBad : Env :=
  { rulesFetch := .error (), mlCall := .failure,
    persistOk := true, reportOk := true }

/-- Environment with no active rules and all collaborators healthy. -/
def envGood : Env :=
  { rulesFetch := .ok [], mlCall := .failure,
    persistOk := true, reportOk := true }

/-- Environment in which the scoring collaborator answers
`{"prediction": [1]}`. -/
def envPred1 : Env :=
  { rulesFetch := .ok [], mlCall := .response true (.list [1]),
    persistOk := true, reportOk := true }

/-! ## Rule engine lemmas -/

/-- The fold of `check_transaction` in closed form: the flag is the
disjunction of per-rule triggers and the reasons are the concatenation,
in rule order, of each rule's contributions. -/
theorem checkStep_foldl (t : Transaction) (rules : List Rule)
    (b : Bool) (acc : List String) :
    rules.foldl (checkStep t) (b, acc) =
      (b || rules.any (fun r => !(checkRule t r).isEmpty),
       acc ++ rules.flatMap (checkRule t)) := by
  induction rules generalizing b acc with
  | nil => simp
  | cons r rs ih => simp [checkStep, ih, Bool.or_assoc]

/-- C8: rule evaluation is a pure function of the transaction and the
rule list (determinism and freedom from side effects are by
construction); its `is_fraud_rule` flag is the logical OR of all
triggered rules, each active rule being checked independently of prior
matches; its reason list is the in-order concatenation of every rule's
contributions, keeping duplicates; and on an empty active rule set it
returns a non-fraud verdict with no reasons, for any transaction. -/
theorem check_transaction_spec (t : Transaction) (rules : List Rule) :
    check_transaction t rules =
      { transaction_id := t.transaction_id
        is_fraud_rule := rules.any (fun r => !(checkRule t r).isEmpty)
        fraud_source := "rule"
        fraud_reasons := rules.flatMap (checkRule t) } ∧
    check_transaction t [] =
      { transaction_id := t.transaction_id
        is_fraud_rule := false
        fraud_source := "rule"
        fraud_reasons := [] } := by
  constructor
  · simp [check_transaction, checkStep_foldl]
  · rfl

/-- C6: a well-formed active `Threshold Value` rule with threshold `th`
(its only payload) triggers exactly when the transaction amount is
strictly greater than `th` — equality does not trigger — and the reason
it appends contains the threshold value. -/
theorem threshold_rule_spec (t : Transaction) (th : ℚ) (r : Rule)
    (hty : r.rule_type = "Threshold Value") (hth : r.threshold = some th)
    (hip : r.blocked_ip = none) (hbr : r.blocked_payer_browser = none)
    (hgw : r.blocked_payment_gateway = none) (hem : r.blocked_email = none) :
    (checkRule t r ≠ [] ↔ t.transaction_amount > th) ∧
    (t.transaction_amount > th →
      checkRule t r = [thresholdReason th] ∧
      ∃ pre post, thresholdReason th = pre ++ toString th ++ post) := by
  have hcr : checkRule t r = thresholdPart t r := by
    simp [checkRule, blockedPart, hip, hbr, hgw, hem]
  constructor
  · rw [hcr]
    simp only [thresholdPart, hth, hty]
    by_cases h : t.transaction_amount > th <;> simp [h]
  · intro h
    refine ⟨?_, "High transaction amount (> ", ")", ?_⟩
    · rw [hcr]; simp [thresholdPart, hth, hty, h]
    · simp [thresholdReason, String.append_assoc]

/-- Closed instance of `threshold_rule_spec`: the 5000-threshold rule
against the 6000-amount transaction. -/
theorem threshold_rule_spec_witness :
    (checkRule txHigh rTh5000 ≠ [] ↔ txHigh.transaction_amount > 5000) ∧
    (txHigh.transaction_amount > 5000 →
      checkRule txHigh rTh5000 = [thresholdReason 5000] ∧
      ∃ pre post, thresholdReason 5000 = pre ++ toString (5000 : ℚ) ++ post) :=
  threshold_rule_spec txHigh 5000 rTh5000 rfl rfl rfl rfl rfl rfl

/-- C7: each blocked-value check triggers exactly on exact, case-sensitive
string equality between the transaction field and the rule's blocked
value; a NULL or empty blocked value never triggers, whatever the
transaction field holds (absent and empty fields included, and an absent
field is handled without error); and for a rule whose only payload is a
blocked value, the rule's reasons are exactly those of the four blocked
checks wired to `payer_ip`, `payer_browser`, `payment_gateway_bank` and
`payer_email` respectively. -/
theorem blocked_rule_spec :
    (∀ (field : Option String) (reason : String → String) (b : String),
      b ≠ "" →
      blockedPart field (some b) reason =
        (if field = some b then [reason b] else [])) ∧
    (∀ (field : Option String) (reason : String → String),
      blockedPart field none reason = []) ∧
    (∀ (field : Option String) (reason : String → String),
      blockedPart field (some "") reason = []) ∧
    (∀ (t : Transaction) (r : Rule), r.threshold = none →
      checkRule t r =
        blockedPart t.payer_ip r.blocked_ip blockedIpReason ++
        blockedPart t.payer_browser r.blocked_payer_browser blockedBrowserReason ++
        blockedPart t.payment_gateway_bank r.blocked_payment_gateway
          blockedGatewayReason ++
        blockedPart t.payer_email r.blocked_email blockedEmailReason) := by
  refine ⟨?_, ?_, ?_, ?_⟩
  · intro field reason b hb
    simp [blockedPart, hb]
  · intro field reason; rfl
  · intro field reason; simp [blockedPart]
  · intro t r hth
    simp [checkRule, thresholdPart, hth]

/-- Closed instance of `blocked_rule_spec`: the `a@b.com` email rule
matches the exact email, does not match the case-variant `A@b.com`, and
an empty blocked value matches nothing. -/
theorem blocked_rule_spec_witness :
    blockedPart (some "a@b.com") (some "a@b.com") blockedEmailReason =
      (if (some "a@b.com" : Option String) = some "a@b.com"
        then [blockedEmailReason "a@b.com"] else []) ∧
    blockedPart (some "A@b.com") (some "a@b.com") blockedEmailReason =
      (if (some "A@b.com" : Option String) = some "a@b.com"
        then [blockedEmailReason "a@b.com"] else []) ∧
    blockedPart (some "") (some "") blockedEmailReason = [] :=
  ⟨(blocked_rule_spec.1 (some "a@b.com") blockedEmailReason "a@b.com" (by decide)),
   (blocked_rule_spec.1 (some "A@b.com") blockedEmailReason "a@b.com" (by decide)),
   (blocked_rule_spec.2.2.1 (some "") blockedEmailReason)⟩

/-- C10: the blocked-value checks are not gated on the rule's declared
kind: a rule row carrying a non-empty `blocked_email` payload triggers
the email check and appends its reason under any `rule_type` string
whatsoever (for example `"Threshold Value"`); only the threshold check
reads `rule_type`. -/
theorem blocked_checks_ignore_rule_type (t : Transaction) (r : Rule)
    (b rt : String) (hb : r.blocked_email = some b) (hne : b ≠ "")
    (hm : t.payer_email = some b) :
    blockedEmailReason b ∈ checkRule t { r with rule_type := rt } ∧
    (rt ≠ "Threshold Value" →
      thresholdPart t { r with rule_type := rt } = []) := by
  constructor
  · simp [checkRule, blockedPart, hb, hne, hm]
  · intro hne'
    simp only [thresholdPart]
    cases h : ({ r with rule_type := rt } : Rule).threshold with
    | none => rfl
    | some th => simp [hne']

/-- Closed instance of `blocked_checks_ignore_rule_type`: a row whose
`rule_type` is `"Threshold Value"` but which carries
`blocked_email = "a@b.com"` still blocks a transaction from that
address. -/
theorem blocked_checks_ignore_rule_type_witness :
    blockedEmailReason "a@b.com" ∈
      checkRule txEmail { rMixed with rule_type := "Threshold Value" } ∧
    ("Threshold Value" ≠ "Threshold Value" →
      thresholdPart txEmail { rMixed with rule_type := "Threshold Value" } = []) :=
  blocked_checks_ignore_rule_type txEmail rMixed "a@b.com" "Threshold Value"
    rfl (by decide) rfl

/-! ## Scoring client and orchestrator theorems -/

/-- The failure modes of the scoring call, as the spec enumerates them:
the POST raises (network error, timeout), the response status is not a
success, or the payload is malformed for
`response.json().get("prediction", [])[0]` — key absent, value a
non-list scalar, or an empty list. -/
def scoringFailed : MlCall → Prop
  | .failure => True
  | .response statusOk pred =>
      statusOk = false ∨ pred = .absent ∨ (∃ n, pred = .scalar n) ∨
        pred = .list []

/-- Environment whose scoring collaborator is this repository's own
`mlserver.py` replying successfully. -/
def envMl : Env :=
  { rulesFetch := .ok [], mlCall := asBackendResponse (ml_predict true "tx-1"),
    persistOk := true, reportOk := true }

/-- C1 counterexample: the scoring client does not invert the prediction
bit.  A collaborator response `{"prediction": [1]}` makes
`get_ml_prediction` return `1`, which is truthy — so with no rule
triggered the merged verdict records `is_fraud_predicted = 1` (treated
as fraud: the report is dispatched), not the `false`/NotFraud the claim
requires; and the scalar response `{"prediction": 1}` of the spec's
wire-contract shape is not even parsed (`None`). -/
theorem prediction_not_inverted_counterexample :
    get_ml_prediction (MlCall.response true (.list [1])) = some 1 ∧
    pyTruthyPred (get_ml_prediction (MlCall.response true (.list [1]))) = true ∧
    (detect envPred1 txPlain).2 =
      Except.ok { transaction_id := "tx-1"
                  is_fraud_rule := false
                  fraud_source := "rule"
                  fraud_reasons := []
                  is_fraud_predicted := some 1 } ∧
    Event.reportDispatched ∈ (detect envPred1 txPlain).1 ∧
    get_ml_prediction (MlCall.response true (.scalar 1)) = none := by
  refine ⟨rfl, rfl, rfl, ?_, rfl⟩
  decide

/-- C1 amended: the prediction value from a successful scoring response
whose `"prediction"` field is a non-empty list is passed through
unchanged into the merged verdict — `prediction = p` yields
`is_fraud_predicted = p`, so `1` is treated as fraud (truthy) and `0` as
not-fraud (falsy); no inversion takes place. -/
theorem prediction_passthrough (env : Env) (t : Transaction)
    (rules : List Rule) (p : Int) (l : List Int)
    (hr : env.rulesFetch = Except.ok rules)
    (hm : env.mlCall = .response true (.list (p :: l)))
    (hp : env.persistOk = true) :
    get_ml_prediction env.mlCall = some p ∧
    (∃ r, (detect env t).2 = Except.ok r ∧ r.is_fraud_predicted = some p) ∧
    pyTruthyPred (some p) = !(p == 0) := by
  obtain ⟨rf, mc, po, ro⟩ := env
  have hr' : rf = Except.ok rules := hr
  have hm' : mc = .response true (.list (p :: l)) := hm
  have hp' : po = true := hp
  subst hr'; subst hm'; subst hp'
  exact ⟨rfl, ⟨_, rfl, rfl⟩, rfl⟩

/-- Closed instance of `prediction_passthrough` at
`{"prediction": [1]}` with an empty rule set. -/
theorem prediction_passthrough_witness :
    get_ml_prediction envPred1.mlCall = some 1 ∧
    (∃ r, (detect envPred1 txPlain).2 = Except.ok r ∧
      r.is_fraud_predicted = some 1) ∧
    pyTruthyPred (some 1) = !((1 : Int) == 0) :=
  prediction_passthrough envPred1 txPlain [] 1 [] rfl rfl rfl

/-- C3: this repository's own scoring server replies with a body holding
only `transaction_id` and `is_fraud` — no `prediction` key — so the
backend's `get_ml_prediction` always returns `None` against it, and the
merged verdict's `is_fraud_predicted` is null for every transaction,
whatever the model computed. -/
theorem mlserver_shape_yields_null (env : Env) (t : Transaction)
    (rules : List Rule) (flag : Bool) (tid : String)
    (hr : env.rulesFetch = Except.ok rules)
    (hm : env.mlCall = asBackendResponse (ml_predict flag tid))
    (hp : env.persistOk = true) :
    get_ml_prediction env.mlCall = none ∧
    ∃ r, (detect env t).2 = Except.ok r ∧ r.is_fraud_predicted = none := by
  obtain ⟨rf, mc, po, ro⟩ := env
  have hr' : rf = Except.ok rules := hr
  have hm' : mc = asBackendResponse (ml_predict flag tid) := hm
  have hp' : po = true := hp
  subst hr'; subst hm'; subst hp'
  exact ⟨rfl, ⟨_, rfl, rfl⟩⟩

/-- Closed instance of `mlserver_shape_yields_null`. -/
theorem mlserver_shape_yields_null_witness :
    get_ml_prediction envMl.mlCall = none ∧
    ∃ r, (detect envMl txPlain).2 = Except.ok r ∧
      r.is_fraud_predicted = none :=
  mlserver_shape_yields_null envMl txPlain [] true "tx-1" rfl rfl rfl

/-- C5: whenever the scoring call fails — the POST raises, the response
status is not a success, or the payload is malformed — the client
returns `None` (it is total: every exception is caught inside
`get_ml_prediction`), and the merged verdict records
`is_fraud_predicted = null`, never the NotFraud value `0`, so the
failure stays distinguishable from a NotFraud answer. -/
theorem scoring_failure_yields_unknown (env : Env) (t : Transaction)
    (rules : List Rule)
    (hr : env.rulesFetch = Except.ok rules)
    (hf : scoringFailed env.mlCall)
    (hp : env.persistOk = true) :
    get_ml_prediction env.mlCall = none ∧
    ∃ r, (detect env t).2 = Except.ok r ∧
      r.is_fraud_predicted = none ∧ r.is_fraud_predicted ≠ some 0 := by
  obtain ⟨rf, mc, po, ro⟩ := env
  have hr' : rf = Except.ok rules := hr
  have hp' : po = true := hp
  have hf' : scoringFailed mc := hf
  subst hr'; subst hp'
  have hml : get_ml_prediction mc = none := by
    cases mc with
    | failure => rfl
    | response statusOk pred =>
      rcases hf' with h | h | ⟨n, h⟩ | h
      · subst h; rfl
      · subst h; cases statusOk <;> rfl
      · subst h; cases statusOk <;> rfl
      · subst h; cases statusOk <;> rfl
  refine ⟨hml, ⟨_, rfl, ?_, ?_⟩⟩
  · exact hml
  · show get_ml_prediction mc ≠ some 0
    rw [hml]
    simp

/-- Closed instance of `scoring_failure_yields_unknown`: the scoring
POST raises. -/
theorem scoring_failure_yields_unknown_witness :
    get_ml_prediction envOkAll.mlCall = none ∧
    ∃ r, (detect envOkAll txHigh).2 = Except.ok r ∧
      r.is_fraud_predicted = none ∧ r.is_fraud_predicted ≠ some 0 :=
  scoring_failure_yields_unknown envOkAll txHigh [rTh5000] rfl True.intro rfl

/-- C9: the fraud report is dispatched exactly when the merged verdict
is positive — the rule flag is true or the prediction is truthy (a
NotFraud `0` or an Unknown `None` prediction never triggers dispatch on
its own); `send_fraud_report` swallows any failure of the report POST
and returns normally; and the whole `detect` outcome — trace and result
alike — is unchanged by whether the report POST succeeds. -/
theorem report_dispatch_iff_positive (env : Env) (t : Transaction)
    (rules : List Rule) (b : Bool)
    (hr : env.rulesFetch = Except.ok rules) :
    (Event.reportDispatched ∈ (detect env t).1 ↔
      ((check_transaction t rules).is_fraud_rule = true ∨
        pyTruthyPred (get_ml_prediction env.mlCall) = true)) ∧
    (∀ postSucceeds tid details,
      send_fraud_report postSucceeds tid details = ()) ∧
    detect { env with reportOk := b } t = detect env t := by
  obtain ⟨rf, mc, po, ro⟩ := env
  have hr' : rf = Except.ok rules := hr
  subst hr'
  refine ⟨?_, ?_, ?_⟩
  · cases hpo : ((check_transaction t rules).is_fraud_rule ||
      pyTruthyPred (get_ml_prediction mc)) with
    | true =>
      rw [Bool.or_eq_true] at hpo
      cases po <;> simp [detect, hpo]
    | false =>
      rw [Bool.or_eq_false_iff] at hpo
      obtain ⟨h1, h2⟩ := hpo
      cases po <;> simp [detect, h1, h2]
  · intro postSucceeds tid details
    cases postSucceeds <;> rfl
  · rfl

/-- Closed instance of `report_dispatch_iff_positive`: the threshold
rule flags the 6000-amount transaction, so the report is dispatched, and
a failing report POST changes nothing. -/
theorem report_dispatch_iff_positive_witness :
    (Event.reportDispatched ∈ (detect envOkAll txHigh).1 ↔
      ((check_transaction txHigh [rTh5000]).is_fraud_rule = true ∨
        pyTruthyPred (get_ml_prediction envOkAll.mlCall) = true)) ∧
    (∀ postSucceeds tid details,
      send_fraud_report postSucceeds tid details = ()) ∧
    detect { envOkAll with reportOk := false } txHigh = detect envOkAll txHigh :=
  report_dispatch_iff_positive envOkAll txHigh [rTh5000] false rfl

/-- C4 counterexample: in `detect`, the report dispatch comes before the
ledger write, not after.  A run in which every collaborator succeeds and
the 5000-threshold rule flags the 6000-amount transaction produces the
trace Received, RulesFetched, Evaluated, Scored, Merged,
ReportDispatched, Persisted — dispatch is attempted before the verdict
is persisted, and the item still completes. -/
theorem report_before_persist_counterexample :
    (detect envOkAll txHigh).1 =
      [Event.received, Event.rulesFetched, Event.evaluated, Event.scored,
       Event.merged, Event.reportDispatched, Event.persisted] ∧
    (detect envOkAll txHigh).2 =
      Except.ok { transaction_id := "tx-big"
                  is_fraud_rule := true
                  fraud_source := "rule"
                  fraud_reasons := [thresholdReason 5000]
                  is_fraud_predicted := none } := by
  exact ⟨by decide, rfl⟩

/-- C4 amended: for every transaction processed by `detect` whose merged
verdict is positive and whose persistence succeeds, the pipeline visits
Received, RulesFetched, Evaluated, Scored, Merged, ReportDispatched and
then Persisted — the report dispatch is attempted before, not after, the
ledger write (in `batch_detect` the two are attempted in the opposite
order). -/
theorem report_then_persist_order (env : Env) (t : Transaction)
    (rules : List Rule)
    (hr : env.rulesFetch = Except.ok rules)
    (hp : env.persistOk = true)
    (hpos : (check_transaction t rules).is_fraud_rule = true ∨
      pyTruthyPred (get_ml_prediction env.mlCall) = true) :
    (detect env t).1 =
      [Event.received, Event.rulesFetched, Event.evaluated, Event.scored,
       Event.merged, Event.reportDispatched, Event.persisted] := by
  obtain ⟨rf, mc, po, ro⟩ := env
  have hr' : rf = Except.ok rules := hr
  have hp' : po = true := hp
  have hpos' : (check_transaction t rules).is_fraud_rule = true ∨
      pyTruthyPred (get_ml_prediction mc) = true := hpos
  subst hr'; subst hp'
  simp [detect, hpos']

/-- Closed instance of `report_then_persist_order`. -/
theorem report_then_persist_order_witness :
    (detect envOkAll txHigh).1 =
      [Event.received, Event.rulesFetched, Event.evaluated, Event.scored,
       Event.merged, Event.reportDispatched, Event.persisted] :=
  report_then_persist_order envOkAll txHigh [rTh5000] rfl rfl
    (Or.inl (by decide))

/-- C2 counterexample: the `batch_detect` loop has no per-item exception
handler.  In a two-item batch whose first item's rule fetch raises, the
exception aborts the whole endpoint: the result is an error, not a
sequence of outcomes — the healthy second item gets no outcome at all. -/
theorem batch_abort_counterexample :
    batch_detect [(envBad, txPlain), (envGood, txHigh)] =
      Except.error PipelineError.storeUnavailable := rfl

/-- C2 amended: when every item's rule fetch and ledger insert succeed,
`batch_detect` returns exactly one outcome per submitted item, in
submission order; but the failure of any one item propagates out of the
loop and aborts the entire batch, returning no per-item outcomes for the
other items. -/
theorem batch_all_ok_spec (items : List (Env × Transaction))
    (h : ∀ p ∈ items, ∃ r, batch_item p.1 p.2 = Except.ok r) :
    ∃ rs, batch_detect items = Except.ok rs ∧
      rs.length = items.length ∧
      List.Forall₂ (fun p r => batch_item p.1 p.2 = Except.ok r) items rs := by
  induction items with
  | nil => exact ⟨[], rfl, rfl, List.Forall₂.nil⟩
  | cons p rest ih =>
    obtain ⟨r, hpr⟩ := h p (List.mem_cons_self p rest)
    obtain ⟨rs, hrs, hlen, hf⟩ := ih (fun q hq => h q (List.mem_cons_of_mem p hq))
    refine ⟨r :: rs, ?_, by simp [hlen], List.Forall₂.cons hpr hf⟩
    obtain ⟨env, t⟩ := p
    simp only at hpr
    simp [batch_detect, hpr, hrs]

/-- Closed instance of `batch_all_ok_spec` on a healthy one-item
batch. -/
theorem batch_all_ok_spec_witness :
    ∃ rs, batch_detect [(envGood, txPlain)] = Except.ok rs ∧
      rs.length = [(envGood, txPlain)].length ∧
      List.Forall₂ (fun p r => batch_item p.1 p.2 = Except.ok r)
        [(envGood, txPlain)] rs :=
  batch_all_ok_spec [(envGood, txPlain)] (by
    intro p hp
    rw [List.mem_singleton] at hp
    subst hp
    exact ⟨_, rfl⟩)

end TransactAI
